import Mathlib

/-!
Shallow embedding of the tile-orchestration core of the Map widget
(source: src/unnamed/part_000, a React component built on Leaflet), together
with the window-scoped polygon helpers it installs.  Geographic coordinates
are modelled as rationals; the Leaflet collaborator operations the component
calls (latLngBounds, extend, contains, addTo, setOpacity) are modelled from
the Leaflet semantics the component relies on.
-/

namespace InvaderMap

/-- A geographic point, as a Leaflet LatLng. -/
structure LatLng where
  lat : ℚ
  lng : ℚ
deriving DecidableEq, Repr

/-- A non-empty rectangular geographic extent, as a Leaflet LatLngBounds
holding its two corner points. -/
structure LatLngBounds where
  southWest : LatLng
  northEast : LatLng
deriving DecidableEq, Repr

/-- Leaflet LatLngBounds.extend with a point: each corner coordinate becomes
the min (southWest) or max (northEast) of the old corner and the point. -/
def extendPoint (b : LatLngBounds) (p : LatLng) : LatLngBounds :=
  ⟨⟨min b.southWest.lat p.lat, min b.southWest.lng p.lng⟩,
   ⟨max b.northEast.lat p.lat, max b.northEast.lng p.lng⟩⟩

/-- Leaflet latLngBounds constructor on a two-point array: the first point
seeds both corners, then the bounds are extended by the second point. -/
def latLngBoundsOf (c1 c2 : LatLng) : LatLngBounds :=
  extendPoint ⟨c1, c1⟩ c2

/-- Leaflet LatLngBounds.extend with another (non-empty) bounds:
componentwise min of the southWest corners and max of the northEast corners. -/
def extendBounds (a b : LatLngBounds) : LatLngBounds :=
  ⟨⟨min a.southWest.lat b.southWest.lat, min a.southWest.lng b.southWest.lng⟩,
   ⟨max a.northEast.lat b.northEast.lat, max a.northEast.lng b.northEast.lng⟩⟩

/-- The running aggregate bounds: the source keeps mapBounds at null until the
first layer arrives, then extends it; the null (empty) aggregate is none.
This is the step `let mapBounds = this.mapBounds or an empty latLngBounds;
mapBounds.extend(bounds)` of the success handler. -/
def extendOpt : Option LatLngBounds → LatLngBounds → Option LatLngBounds
  | none, b => some b
  | some a, b => some (extendBounds a b)

/-- Bounds union on possibly-empty bounds (none is the empty bounds, i.e. a
Leaflet latLngBounds() with no corners, which extend treats as absorbing the
other operand). -/
def unionOpt : Option LatLngBounds → Option LatLngBounds → Option LatLngBounds
  | none, b => b
  | some a, none => some a
  | some a, some b => some (extendBounds a b)

/-- Leaflet LatLngBounds.contains on a point: the point lies between the two
corners on both axes (corner inclusive). -/
def containsPoint (b : LatLngBounds) (p : LatLng) : Bool :=
  decide (b.southWest.lat ≤ p.lat) && decide (p.lat ≤ b.northEast.lat) &&
  decide (b.southWest.lng ≤ p.lng) && decide (p.lng ≤ b.northEast.lng)

/-- The meta object of a TileDescriptor: project and task identifiers provided
by the host, plus the name field the success handler writes into it
(absent on input, hence an Option). -/
structure Meta where
  project : String
  task : String
  name : Option String
deriving DecidableEq, Repr

/-- A fetched tile-metadata JSON document.  The four entries of its bounds
array are kept in document order: b0, b1, b2, b3 are bounds[0] .. bounds[3]
(the wire format documents them as west, south, east, north). -/
structure TileInfo where
  name : String
  b0 : ℚ
  b1 : ℚ
  b2 : ℚ
  b3 : ℚ
  minzoom : ℤ
  maxzoom : ℤ
  tiles : List String
  scheme : Option String
deriving DecidableEq, Repr

/-- The bounds normalization of the success handler:
latLngBounds([ bounds.slice(0,2).reverse(), bounds.slice(2,4).reverse() ]),
i.e. the corner points (b1, b0) and (b3, b2) as (lat, lng) pairs. -/
def normalizedBounds (info : TileInfo) : LatLngBounds :=
  latLngBoundsOf ⟨info.b1, info.b0⟩ ⟨info.b3, info.b2⟩

/-- The success handler executes `meta.name = info.name`, mutating the meta
object of the descriptor in place; afterwards the same (shared) object is
stored on the layer.  This is the value of that object after the write. -/
def metaAfterLoad (info : TileInfo) (meta : Meta) : Meta :=
  { meta with name := some info.name }

/-- A runtime tile layer: the Leaflet tileLayer options recorded by the
success handler plus the rendering-handle state the claims are about.
attached models layer._map being non-null (true right after addTo(this.map),
false once the layer is removed from the map, e.g. toggled off). -/
structure Layer where
  urlTemplate : String
  bounds : LatLngBounds
  minZoom : ℤ
  maxZoom : ℤ
  tms : Bool
  attached : Bool
  opacity : ℚ
  meta : Meta
deriving DecidableEq, Repr

/-- The layer the success handler constructs for a document and descriptor:
tileLayer(info.tiles[0], options).addTo(this.map), then the meta association.
Indexing info.tiles at 0 is total here because documents carry at least one
URL template; Leaflet starts the opacity at 1. -/
def makeLayer (info : TileInfo) (meta : Meta) : Layer :=
  { urlTemplate := info.tiles.headD ""
    bounds := normalizedBounds info
    minZoom := info.minzoom
    maxZoom := info.maxzoom
    tms := info.scheme = some "tms"
    attached := true
    opacity := 1
    meta := metaAfterLoad info meta }

/-- The outcome of one metadata fetch, as observed by the jQuery handlers:
either the parsed document or an error carrying the message the final
callback reads. -/
inductive FetchResult where
  | success (info : TileInfo)
  | failure (msg : String)
deriving DecidableEq, Repr

/-- The component state touched by componentDidMount: the imageryLayers
array, the running mapBounds aggregate, the error string of this.state, the
async.each bookkeeping (remaining fetches and whether the final callback has
fired), and the success-path wiring (fitBounds target, autolayers control,
map click handler). -/
structure LoadState where
  imageryLayers : List Layer
  mapBounds : Option LatLngBounds
  error : String
  pending : Nat
  asyncDone : Bool
  fitted : Option LatLngBounds
  controlAdded : Bool
  clickRegistered : Bool
deriving DecidableEq, Repr

/-- The state before any fetch completes, for n issued fetches. -/
def initState (n : Nat) : LoadState :=
  { imageryLayers := []
    mapBounds := none
    error := ""
    pending := n
    asyncDone := false
    fitted := none
    controlAdded := false
    clickRegistered := false }

/-- The success branch of the async.each final callback: fitBounds to the
aggregate, build the autolayers control from the imageryLayers, and register
the single map click handler. -/
def finishSuccess (st : LoadState) : LoadState :=
  { st with asyncDone := true
            fitted := st.mapBounds
            controlAdded := true
            clickRegistered := true }

/-- The body of the jQuery done handler, which runs whenever its own fetch
succeeds, whether or not the overall operation already aborted: build the
layer, addTo(this.map), push onto imageryLayers, extend mapBounds.  The
pending decrement is the bookkeeping of async.each for this completion. -/
def applySuccessHandler (st : LoadState) (meta : Meta) (info : TileInfo) : LoadState :=
  { st with imageryLayers := st.imageryLayers ++ [makeLayer info meta]
            mapBounds := extendOpt st.mapBounds (normalizedBounds info)
            pending := st.pending - 1 }

/-- One fetch completion, in completion order.  On success the jQuery done
handler runs unconditionally; async.each then fires the final callback once
all fetches completed without error, and ignores completions arriving after
the callback fired.  On failure, async.each fires the final callback with
the first error, which sets this.state.error; later completions are ignored
by async.each but their own success handlers still mutate the state. -/
def stepCompletion (st : LoadState) (meta : Meta) (r : FetchResult) : LoadState :=
  match r with
  | .success info =>
      let st1 := applySuccessHandler st meta info
      if st1.asyncDone then st1
      else if st1.pending = 0 then finishSuccess st1
      else st1
  | .failure msg =>
      if st.asyncDone then { st with pending := st.pending - 1 }
      else { st with pending := st.pending - 1, asyncDone := true, error := msg }

/-- A whole load run: the fetches of all descriptors are issued at once, and
events is the per-descriptor outcome sequence in completion order (one entry
per descriptor, order arbitrary). -/
def runLoad (events : List (Meta × FetchResult)) : LoadState :=
  events.foldl (fun st e => stepCompletion st e.1 e.2) (initState events.length)

/-- The layers the success handlers create during a run, in completion
order. -/
def successLayers (events : List (Meta × FetchResult)) : List Layer :=
  events.filterMap fun e =>
    match e.2 with
    | .success info => some (makeLayer info e.1)
    | .failure _ => none

/-- The normalized bounds of the successful documents, in completion order. -/
def successBoundsList (events : List (Meta × FetchResult)) : List LatLngBounds :=
  events.filterMap fun e =>
    match e.2 with
    | .success info => some (normalizedBounds info)
    | .failure _ => none

/-- The message of the first failure in completion order, if any. -/
def firstFailure : List (Meta × FetchResult) → Option String
  | [] => none
  | (_, .failure msg) :: _ => some msg
  | (_, .success _) :: rest => firstFailure rest

/-- Leaflet setOpacity on the rendering handle of one layer. -/
def setOpacity (l : Layer) (v : ℚ) : Layer :=
  { l with opacity := v }

/-- componentDidUpdate: every imageryLayer gets setOpacity(opacity / 100),
whatever the load state is. -/
def componentDidUpdate (layers : List Layer) (opacity : ℚ) : List Layer :=
  layers.map fun l => setOpacity l (opacity / 100)

/-- A JavaScript runtime error, as thrown by the teardown path. -/
inductive JsError where
  | typeError (msg : String)
deriving DecidableEq, Repr

/-- The component state touched by componentWillUnmount: whether the map
surface has been released, the ids of outstanding requests in
this.tileJsonRequests, and the ids aborted so far. -/
structure UnmountState where
  mapRemoved : Bool
  tileJsonRequests : List Nat
  aborted : List Nat
deriving DecidableEq, Repr

/-- One iteration of the teardown loop.  The source executes
`this.tileJsonRequest.abort()`: the instance has no property named
tileJsonRequest (only tileJsonRequests, plural), so the access yields
undefined and the method call throws a TypeError; the loop variable that
holds the actual request is never used, so no request is aborted. -/
def abortIteration (_s0 : UnmountState) (r : Nat) : Except JsError UnmountState :=
  let _ := r
  Except.error (.typeError "this.tileJsonRequest is undefined")

/-- componentWillUnmount: this.map.remove(), then, since the
tileJsonRequests array is truthy, the forEach over it, then the reset of
tileJsonRequests to the empty array (never reached if an iteration throws). -/
def componentWillUnmount (st : UnmountState) : Except JsError UnmountState := do
  let st1 : UnmountState := { st with mapRemoved := true }
  let st2 ← st1.tileJsonRequests.foldlM abortIteration st1
  pure { st2 with tileJsonRequests := [] }

/-- The click handler registered on the map: iterate imageryLayers in order,
and the first layer that is on the map (layer._map non-null) and whose bounds
contain the clicked coordinate receives openPopup; then break.  The returned
layer is the one that receives the popup-open call, none if no layer
qualifies (the click is a no-op). -/
def clickHitLayer (layers : List Layer) (p : LatLng) : Option Layer :=
  layers.find? fun l => l.attached && containsPoint l.bounds p

/-- A polygon registered by window.createPolygon. -/
structure NamedPolygon where
  name : String
  points : List LatLng
  color : String
deriving DecidableEq, Repr

/-- The window-scoped mutable state the component installs: window.map,
window.polygonArray and window.createPolygon. -/
structure WindowGlobals where
  map : Option Nat
  polygonArray : List NamedPolygon
  createPolygonDefined : Bool
deriving DecidableEq, Repr

/-- The global writes of componentDidMount: window.map = this.map (the handle
id), window.polygonArray = [], and the definition of window.createPolygon. -/
def componentDidMountGlobals (g : WindowGlobals) (mapHandle : Nat) : WindowGlobals :=
  { g with map := some mapHandle
           polygonArray := []
           createPolygonDefined := true }

/-- window.createPolygon(polygonPoints, color, name): builds the polygon,
pushes it onto the global polygonArray, and adds it to window.map. -/
def createPolygon (g : WindowGlobals) (points : List LatLng) (color name : String) :
    WindowGlobals :=
  { g with polygonArray := g.polygonArray ++ [⟨name, points, color⟩] }

/-- The union of a list of individually-computed layer bounds, folded with
the bounds-union operation starting from the empty bounds. -/
def unionOfBoundsList (bs : List LatLngBounds) : Option LatLngBounds :=
  (bs.map some).foldl unionOpt none

/-! Concrete fixtures used by witnesses and counterexamples.  infoA and
infoB are the two documents of the spec scenario, with bounds arrays
[-9.2, 38.6, -9.1, 38.7] and [-9.3, 38.5, -9.2, 38.6]. -/

def metaA : Meta := ⟨"1", "t1", none⟩

def metaB : Meta := ⟨"1", "t2", none⟩

def infoA : TileInfo :=
  ⟨"A", mkRat (-92) 10, mkRat 386 10, mkRat (-91) 10, mkRat 387 10, 0, 18,
    ["http://a/tiles/z-x-y.png"], none⟩

def infoB : TileInfo :=
  ⟨"B", mkRat (-93) 10, mkRat 385 10, mkRat (-92) 10, mkRat 386 10, 0, 18,
    ["http://b/tiles/z-x-y.png"], some "tms"⟩

/-- Completion order: A succeeds, then B fails with HTTP 500. -/
def eventsAfail : List (Meta × FetchResult) :=
  [(metaA, .success infoA), (metaB, .failure "HTTP 500")]

/-- Completion order: A first, then B, both successful. -/
def eventsAB : List (Meta × FetchResult) :=
  [(metaA, .success infoA), (metaB, .success infoB)]

/-- Completion order: B first, then A, both successful. -/
def eventsBA : List (Meta × FetchResult) :=
  [(metaB, .success infoB), (metaA, .success infoA)]

/-- A loaded layer that has been toggled off the map (layer._map null). -/
def layerOff : Layer :=
  { urlTemplate := "u1", bounds := ⟨⟨0, 0⟩, ⟨10, 10⟩⟩, minZoom := 0, maxZoom := 18
    tms := false, attached := false, opacity := 1, meta := ⟨"1", "t1", some "L1"⟩ }

/-- A loaded layer that is attached to the map, overlapping layerOff. -/
def layerOn : Layer :=
  { urlTemplate := "u2", bounds := ⟨⟨1, 1⟩, ⟨9, 9⟩⟩, minZoom := 0, maxZoom := 18
    tms := false, attached := true, opacity := 1, meta := ⟨"1", "t2", some "L2"⟩ }

/-- A click coordinate inside the bounds of both fixture layers. -/
def pt0 : LatLng := ⟨5, 5⟩

/-- A click coordinate outside the bounds of both fixture layers. -/
def ptOut : LatLng := ⟨20, 20⟩

/-- Window globals before the component mounts. -/
def g0 : WindowGlobals := ⟨none, [], false⟩

/-! Helper lemmas. -/

theorem extendBounds_comm (a b : LatLngBounds) : extendBounds a b = extendBounds b a := by
  simp [extendBounds, min_comm, max_comm]

theorem extendBounds_assoc (a b c : LatLngBounds) :
    extendBounds (extendBounds a b) c = extendBounds a (extendBounds b c) := by
  simp [extendBounds, min_assoc, max_assoc]

theorem extendBounds_right_comm (c a b : LatLngBounds) :
    extendBounds (extendBounds c a) b = extendBounds (extendBounds c b) a := by
  simp [extendBounds, min_right_comm, Max.right_comm]

theorem unionOpt_some (acc : Option LatLngBounds) (b : LatLngBounds) :
    unionOpt acc (some b) = extendOpt acc b := by
  cases acc <;> rfl

instance extendOpt_rightCommutative : RightCommutative extendOpt :=
  ⟨by
    intro o a b
    cases o with
    | none => simp [extendOpt, extendBounds_comm]
    | some c => simp [extendOpt, extendBounds_right_comm]⟩

theorem foldl_extendOpt_eq_unionOfBoundsList (bs : List LatLngBounds) :
    ∀ acc : Option LatLngBounds, bs.foldl extendOpt acc = (bs.map some).foldl unionOpt acc := by
  induction bs with
  | nil => intro acc; rfl
  | cons b rest ih => intro acc; simp [List.foldl_cons, unionOpt_some, ih]

theorem stepCompletion_imageryLayers (st : LoadState) (m : Meta) (r : FetchResult) :
    (stepCompletion st m r).imageryLayers =
      st.imageryLayers ++ successLayers [(m, r)] := by
  cases r with
  | success info =>
      simp only [stepCompletion, successLayers, List.filterMap]
      split <;> [skip; split] <;>
        simp [applySuccessHandler, finishSuccess]
  | failure msg =>
      simp only [stepCompletion, successLayers, List.filterMap]
      split <;> simp

theorem stepCompletion_mapBounds (st : LoadState) (m : Meta) (r : FetchResult) :
    (stepCompletion st m r).mapBounds =
      (successBoundsList [(m, r)]).foldl extendOpt st.mapBounds := by
  cases r with
  | success info =>
      simp only [stepCompletion, successBoundsList, List.filterMap]
      split <;> [skip; split] <;>
        simp [applySuccessHandler, finishSuccess]
  | failure msg =>
      simp only [stepCompletion, successBoundsList, List.filterMap]
      split <;> simp

theorem successLayers_cons (e : Meta × FetchResult) (rest : List (Meta × FetchResult)) :
    successLayers (e :: rest) = successLayers [e] ++ successLayers rest := by
  cases e with
  | mk m r => cases r <;> simp [successLayers]

theorem successBoundsList_cons (e : Meta × FetchResult) (rest : List (Meta × FetchResult)) :
    successBoundsList (e :: rest) = successBoundsList [e] ++ successBoundsList rest := by
  cases e with
  | mk m r => cases r <;> simp [successBoundsList]

theorem foldLoad_imageryLayers (events : List (Meta × FetchResult)) :
    ∀ st : LoadState,
      (events.foldl (fun s e => stepCompletion s e.1 e.2) st).imageryLayers =
        st.imageryLayers ++ successLayers events := by
  induction events with
  | nil => intro st; simp [successLayers]
  | cons e rest ih =>
      intro st
      rw [List.foldl_cons, ih, successLayers_cons, stepCompletion_imageryLayers,
        List.append_assoc]

theorem foldLoad_mapBounds (events : List (Meta × FetchResult)) :
    ∀ st : LoadState,
      (events.foldl (fun s e => stepCompletion s e.1 e.2) st).mapBounds =
        (successBoundsList events).foldl extendOpt st.mapBounds := by
  induction events with
  | nil => intro st; simp [successBoundsList]
  | cons e rest ih =>
      intro st
      rw [List.foldl_cons, ih, successBoundsList_cons, List.foldl_append,
        stepCompletion_mapBounds]

theorem stepCompletion_done (st : LoadState) (m : Meta) (r : FetchResult)
    (h : st.asyncDone = true) :
    (stepCompletion st m r).error = st.error ∧
    (stepCompletion st m r).asyncDone = true := by
  cases r with
  | success info => simp [stepCompletion, applySuccessHandler, h]
  | failure msg => simp [stepCompletion, h]

theorem foldLoad_error_after_done (events : List (Meta × FetchResult)) :
    ∀ st : LoadState, st.asyncDone = true →
      (events.foldl (fun s e => stepCompletion s e.1 e.2) st).error = st.error ∧
      (events.foldl (fun s e => stepCompletion s e.1 e.2) st).asyncDone = true := by
  induction events with
  | nil => intro st h; exact ⟨rfl, h⟩
  | cons e rest ih =>
      intro st h
      rw [List.foldl_cons]
      have hstep := stepCompletion_done st e.1 e.2 h
      have := ih (stepCompletion st e.1 e.2) hstep.2
      exact ⟨this.1.trans hstep.1, this.2⟩

theorem foldLoad_error (events : List (Meta × FetchResult)) :
    ∀ st : LoadState, st.asyncDone = false → st.pending = events.length →
      (events.foldl (fun s e => stepCompletion s e.1 e.2) st).error =
        (firstFailure events).getD st.error := by
  induction events with
  | nil => intro st _ _; simp [firstFailure]
  | cons e rest ih =>
      intro st h1 h2
      cases e with
      | mk m r =>
        cases r with
        | success info =>
            rw [List.foldl_cons]
            have hd : (applySuccessHandler st m info).asyncDone = false := by
              simp [applySuccessHandler, h1]
            have hp : (applySuccessHandler st m info).pending = rest.length := by
              simp [applySuccessHandler, h2]
            by_cases hr : rest.length = 0
            · have hre : rest = [] := List.length_eq_zero.mp hr
              subst hre
              have hstep : stepCompletion st m (.success info) =
                  finishSuccess (applySuccessHandler st m info) := by
                simp [stepCompletion, hd, hp, hr]
              rw [hstep]
              simp [finishSuccess, applySuccessHandler, firstFailure]
            · have hstep : stepCompletion st m (.success info) =
                  applySuccessHandler st m info := by
                simp [stepCompletion, hd, hp, hr]
              rw [hstep]
              have hrec := ih (applySuccessHandler st m info) hd (hp.trans rfl)
              rw [hrec]
              simp [firstFailure, applySuccessHandler]
        | failure msg =>
            rw [List.foldl_cons]
            have hstep : stepCompletion st m (.failure msg) =
                { st with pending := st.pending - 1, asyncDone := true, error := msg } := by
              simp [stepCompletion, h1]
            rw [hstep]
            have hdone := foldLoad_error_after_done rest
              { st with pending := st.pending - 1, asyncDone := true, error := msg } rfl
            rw [hdone.1]
            simp [firstFailure]

theorem mem_successLayers_attached {l : Layer} {events : List (Meta × FetchResult)}
    (h : l ∈ successLayers events) : l.attached = true := by
  simp only [successLayers, List.mem_filterMap] at h
  obtain ⟨⟨m, r⟩, _, heq⟩ := h
  cases r with
  | success info =>
      simp only [Option.some.injEq] at heq
      rw [← heq]
      rfl
  | failure msg => simp at heq

/-! Claim theorems. -/

/-- C6: bounds union is commutative and associative, and the empty bounds
(none) is its identity: for all possibly-empty bounds A, B, C,
unionOpt A B = unionOpt B A,
unionOpt A (unionOpt B C) = unionOpt (unionOpt A B) C, and
unionOpt none A = A. -/
theorem union_comm_assoc_identity (A B C : Option LatLngBounds) :
    unionOpt A B = unionOpt B A ∧
    unionOpt A (unionOpt B C) = unionOpt (unionOpt A B) C ∧
    unionOpt none A = A := by
  refine ⟨?_, ?_, rfl⟩
  · cases A <;> cases B <;> simp [unionOpt, extendBounds_comm]
  · cases A <;> cases B <;> cases C <;> simp [unionOpt, extendBounds_assoc]

/-- C3: for a fetched document whose bounds array holds west, south, east,
north in positions 0..3 (so that west is at most east and south at most
north), the normalized layer bounds are exactly
southWest = (south, west) and northEast = (north, east). -/
theorem normalizedBounds_axis_swap (info : TileInfo)
    (hlat : info.b1 ≤ info.b3) (hlng : info.b0 ≤ info.b2) :
    normalizedBounds info = ⟨⟨info.b1, info.b0⟩, ⟨info.b3, info.b2⟩⟩ := by
  simp [normalizedBounds, latLngBoundsOf, extendPoint, min_eq_left hlat,
    min_eq_left hlng, max_eq_right hlat, max_eq_right hlng]

/-- Witness for C3 at the document infoA, whose bounds array is
[-9.2, 38.6, -9.1, 38.7]. -/
theorem normalizedBounds_axis_swap_witness :
    normalizedBounds infoA =
      ⟨⟨mkRat 386 10, mkRat (-92) 10⟩, ⟨mkRat 387 10, mkRat (-91) 10⟩⟩ :=
  normalizedBounds_axis_swap infoA (by decide) (by decide)

/-- C4: the aggregate mapBounds of a load equals the union of the
individually-computed normalized bounds of the successful documents, the
aggregate is the same for every completion order, and on the scenario
documents infoA and infoB the aggregate is southWest (38.5, -9.3),
northEast (38.7, -9.1). -/
theorem aggregate_bounds_union_order_independent :
    (∀ events : List (Meta × FetchResult),
        (runLoad events).mapBounds = unionOfBoundsList (successBoundsList events)) ∧
    (∀ events events2 : List (Meta × FetchResult), events.Perm events2 →
        (runLoad events).mapBounds = (runLoad events2).mapBounds) ∧
    (runLoad eventsAB).mapBounds =
      some ⟨⟨mkRat 385 10, mkRat (-93) 10⟩, ⟨mkRat 387 10, mkRat (-91) 10⟩⟩ := by
  have hagg : ∀ events : List (Meta × FetchResult),
      (runLoad events).mapBounds = (successBoundsList events).foldl extendOpt none :=
    fun events => foldLoad_mapBounds events (initState events.length)
  refine ⟨?_, ?_, ?_⟩
  · intro events
    rw [hagg, unionOfBoundsList, foldl_extendOpt_eq_unionOfBoundsList]
  · intro events events2 hp
    rw [hagg, hagg]
    exact ((hp.filterMap _).foldl_eq) none
  · rw [hagg]
    decide

/-- Witness for C4: the scenario run in both completion orders, with the
aggregate evaluated on the order-swapped run via the theorem. -/
theorem aggregate_bounds_union_order_independent_witness :
    (runLoad eventsAB).mapBounds = (runLoad eventsBA).mapBounds ∧
    (runLoad eventsAB).mapBounds =
      some ⟨⟨mkRat 385 10, mkRat (-93) 10⟩, ⟨mkRat 387 10, mkRat (-91) 10⟩⟩ :=
  ⟨aggregate_bounds_union_order_independent.2.1 eventsAB eventsBA (by decide),
   aggregate_bounds_union_order_independent.2.2⟩

/-- C1 counterexample: in the run where fetch A succeeds and then fetch B
fails with HTTP 500, the overall operation does report the single error,
but the layer built from the successful fetch A is retained in
imageryLayers and is attached to the map — refuting the claim that no
layer, including layers whose own fetches succeeded, is attached or
retained when some fetch fails. -/
theorem load_failure_no_layers_counterexample :
    (runLoad eventsAfail).error = "HTTP 500" ∧
    (runLoad eventsAfail).imageryLayers = [makeLayer infoA metaA] ∧
    (makeLayer infoA metaA).attached = true := by
  refine ⟨rfl, rfl, rfl⟩

/-- C1 amended: when at least one fetch fails, the load reports the message
of the first failure in completion order as its single error, but every
layer created by a successful fetch — whether it completed before or after
the failure — is retained in imageryLayers (in completion order) and stays
attached to the map surface; nothing is detached or discarded. -/
theorem load_failure_reports_first_error_keeps_layers
    (events : List (Meta × FetchResult)) (msg : String)
    (hfail : firstFailure events = some msg) :
    (runLoad events).error = msg ∧
    (runLoad events).imageryLayers = successLayers events ∧
    ∀ l ∈ (runLoad events).imageryLayers, l.attached = true := by
  have herr := foldLoad_error events (initState events.length) rfl rfl
  have hlay := foldLoad_imageryLayers events (initState events.length)
  refine ⟨?_, ?_, ?_⟩
  · show (events.foldl (fun s e => stepCompletion s e.1 e.2) (initState events.length)).error = msg
    rw [herr, hfail]
    rfl
  · show (events.foldl (fun s e => stepCompletion s e.1 e.2)
        (initState events.length)).imageryLayers = successLayers events
    rw [hlay]
    rfl
  · intro l hl
    replace hl : l ∈ (events.foldl (fun s e => stepCompletion s e.1 e.2)
        (initState events.length)).imageryLayers := hl
    rw [hlay] at hl
    exact mem_successLayers_attached (by simpa [initState] using hl)

/-- Witness for C1 amended at the concrete A-succeeds-then-B-fails run. -/
theorem load_failure_reports_first_error_keeps_layers_witness :
    (runLoad eventsAfail).error = "HTTP 500" ∧
    (runLoad eventsAfail).imageryLayers = successLayers eventsAfail :=
  ⟨(load_failure_reports_first_error_keeps_layers eventsAfail "HTTP 500" rfl).1,
   (load_failure_reports_first_error_keeps_layers eventsAfail "HTTP 500" rfl).2.1⟩

/-- C2: evaluating the teardown at a controller holding one outstanding
request shows the slip in the source: the loop body reads the absent
property tileJsonRequest (singular) instead of the loop variable, so the
call throws a TypeError and no request is aborted; with no outstanding
request the loop body never runs and teardown completes. -/
theorem componentWillUnmount_abort_throws :
    componentWillUnmount ⟨false, [0], []⟩ =
      Except.error (.typeError "this.tileJsonRequest is undefined") ∧
    componentWillUnmount ⟨false, [], []⟩ = Except.ok ⟨true, [], []⟩ :=
  ⟨rfl, rfl⟩

/-- C5 counterexample: both fixture layers contain the click point and the
detached layerOff precedes the attached layerOn in registry order, yet the
popup-open call goes to layerOn — the first containing layer in registry
order does not receive it, refuting the claim as stated. -/
theorem click_first_layer_counterexample :
    containsPoint layerOff.bounds pt0 = true ∧
    containsPoint layerOn.bounds pt0 = true ∧
    clickHitLayer [layerOff, layerOn] pt0 = some layerOn ∧
    layerOn ≠ layerOff := by
  refine ⟨rfl, rfl, rfl, by decide⟩

/-- C5 amended: on a click, among the layers that are attached to the map
and whose bounds contain the coordinate, exactly the first one in registry
(completion) order receives the popup-open call: every layer before it in
the registry either is detached or does not contain the point, and no other
layer receives a popup. -/
theorem click_first_attached_containing_layer
    (layers : List Layer) (p : LatLng) (l : Layer)
    (h : clickHitLayer layers p = some l) :
    l.attached = true ∧ containsPoint l.bounds p = true ∧
    ∃ pre post, layers = pre ++ l :: post ∧
      ∀ x ∈ pre, (x.attached && containsPoint x.bounds p) = false := by
  have hc := List.find?_eq_some.mp h
  obtain ⟨hl, pre, post, hsplit, hall⟩ := hc
  rw [Bool.and_eq_true] at hl
  refine ⟨hl.1, hl.2, pre, post, hsplit, fun x hx => ?_⟩
  have hx2 := hall x hx
  cases hb : (x.attached && containsPoint x.bounds p) with
  | false => rfl
  | true => rw [hb] at hx2; exact absurd hx2 (by decide)

/-- Witness for C5 amended at the fixture click: the popup target returned
for [layerOff, layerOn] at pt0 is attached and contains the point. -/
theorem click_first_attached_containing_layer_witness :
    layerOn.attached = true ∧ containsPoint layerOn.bounds pt0 = true :=
  ⟨(click_first_attached_containing_layer [layerOff, layerOn] pt0 layerOn rfl).1,
   (click_first_attached_containing_layer [layerOff, layerOn] pt0 layerOn rfl).2.1⟩

/-- C7 counterexample: loading descriptor metaA with document infoA changes
the meta object: the write of the fetched name makes the meta carried on the
layer differ from the input meta, so the meta object is neither immutable
nor carried through unchanged. -/
theorem meta_carried_unchanged_counterexample :
    (makeLayer infoA metaA).meta ≠ metaA ∧ metaAfterLoad infoA metaA ≠ metaA := by
  refine ⟨by decide, by decide⟩

/-- C7 amended: the meta object of each descriptor is carried through to
the corresponding layer by reference, but loading overwrites its name field
with the name of the fetched document (mutating the meta object of the
descriptor in place); the project and task fields are carried through unchanged. -/
theorem meta_name_overwritten (info : TileInfo) (meta : Meta) :
    (makeLayer info meta).meta = metaAfterLoad info meta ∧
    (metaAfterLoad info meta).project = meta.project ∧
    (metaAfterLoad info meta).task = meta.task ∧
    (metaAfterLoad info meta).name = some info.name :=
  ⟨rfl, rfl, rfl, rfl⟩

/-- C8 counterexample: after the run where A succeeds and B fails the
controller is in the Failed state (non-empty error), yet applying opacity 50
changes the rendering handle of the retained layer — applying an opacity in the
Failed state does have an effect, refuting that conjunct of the claim. -/
theorem opacity_failed_state_counterexample :
    (runLoad eventsAfail).error ≠ "" ∧
    componentDidUpdate (runLoad eventsAfail).imageryLayers 50 ≠
      (runLoad eventsAfail).imageryLayers := by
  refine ⟨by decide, ?_⟩
  intro hcontra
  have h1 : (runLoad eventsAfail).imageryLayers = [makeLayer infoA metaA] := rfl
  have h2 : componentDidUpdate [makeLayer infoA metaA] 50 =
      [setOpacity (makeLayer infoA metaA) (50 / 100)] := rfl
  rw [h1, h2] at hcontra
  have h3 := congrArg (fun xs => (xs.headD (makeLayer infoA metaA)).opacity) hcontra
  simp [setOpacity, makeLayer] at h3
  norm_num at h3

/-- C8 amended: for every opacity value v, applying v is idempotent
(applying it twice leaves every rendering handle as after applying it once)
and uniform (every layer in imageryLayers gets opacity v / 100); it applies
to whatever layers are in imageryLayers at the time, including layers
already created during Loading or retained in the Failed state. -/
theorem opacity_idempotent_uniform (layers : List Layer) (v : ℚ) :
    componentDidUpdate (componentDidUpdate layers v) v = componentDidUpdate layers v ∧
    ∀ l ∈ componentDidUpdate layers v, l.opacity = v / 100 := by
  constructor
  · simp [componentDidUpdate, setOpacity]
  · intro l hl
    simp only [componentDidUpdate, List.mem_map] at hl
    obtain ⟨x, _, hx⟩ := hl
    rw [← hx]
    rfl

/-- Witness for C8 amended at the fixture layer and opacity 50. -/
theorem opacity_idempotent_uniform_witness :
    componentDidUpdate (componentDidUpdate [layerOn] 50) 50 =
      componentDidUpdate [layerOn] 50 ∧
    (setOpacity layerOn (50 / 100)).opacity = 50 / 100 :=
  ⟨(opacity_idempotent_uniform [layerOn] 50).1,
   (opacity_idempotent_uniform [layerOn] 50).2 (setOpacity layerOn (50 / 100))
     (by simp [componentDidUpdate])⟩

/-- C9 counterexample: mounting the component mutates the window-scoped
state (it publishes the map handle at window.map), and window.createPolygon
mutates the window-scoped polygon registry — the mutable state of the widget is
not owned by the controller instance alone. -/
theorem no_window_globals_counterexample :
    componentDidMountGlobals g0 7 ≠ g0 ∧
    (componentDidMountGlobals g0 7).map = some 7 ∧
    (createPolygon (componentDidMountGlobals g0 7) [pt0] "red" "poly1").polygonArray
      ≠ [] := by
  refine ⟨by decide, rfl, by decide⟩

/-- C9 amended: componentDidMount publishes the map handle as window.map,
resets the window-scoped polygonArray and defines window.createPolygon;
createPolygon appends to that window-scoped registry — the map handle and
the polygon list live in process-wide window-scoped mutable state. -/
theorem window_globals_written (g : WindowGlobals) (mapHandle : Nat)
    (pts : List LatLng) (c n : String) :
    (componentDidMountGlobals g mapHandle).map = some mapHandle ∧
    (componentDidMountGlobals g mapHandle).polygonArray = [] ∧
    (componentDidMountGlobals g mapHandle).createPolygonDefined = true ∧
    (createPolygon g pts c n).polygonArray = g.polygonArray ++ [⟨n, pts, c⟩] :=
  ⟨rfl, rfl, rfl, rfl⟩

/-- C10: the click hit-test only considers layers attached to the map: a
detached layer never receives the popup-open call; a non-attached head of
the registry is skipped so the next layers in registry order decide the
target; and when no attached layer contains the point the click is a no-op
(no popup opened). -/
theorem click_ignores_detached_layers (layers : List Layer) (p : LatLng) :
    (∀ l ∈ layers, l.attached = false → clickHitLayer layers p ≠ some l) ∧
    (∀ d rest, d.attached = false →
        clickHitLayer (d :: rest) p = clickHitLayer rest p) ∧
    ((∀ l ∈ layers, l.attached = true → containsPoint l.bounds p = false) →
        clickHitLayer layers p = none) := by
  refine ⟨?_, ?_, ?_⟩
  · intro l _ hdet hsome
    have := List.find?_some hsome
    rw [Bool.and_eq_true] at this
    rw [hdet] at this
    exact Bool.false_ne_true this.1
  · intro d rest hdet
    simp [clickHitLayer, List.find?_cons_of_neg, hdet]
  · intro hnone
    refine List.find?_eq_none.mpr ?_
    intro x hx hcon
    rw [Bool.and_eq_true] at hcon
    have := hnone x hx hcon.1
    rw [this] at hcon
    exact Bool.false_ne_true hcon.2

/-- Witness for C10 at the fixture layers: the detached containing layer is
not the popup target, the detached head is skipped in favor of the rest of
the registry, and a click outside every attached layer is a no-op. -/
theorem click_ignores_detached_layers_witness :
    clickHitLayer [layerOff, layerOn] pt0 ≠ some layerOff ∧
    clickHitLayer [layerOff, layerOn] pt0 = clickHitLayer [layerOn] pt0 ∧
    clickHitLayer [layerOff, layerOn] ptOut = none :=
  ⟨(click_ignores_detached_layers [layerOff, layerOn] pt0).1 layerOff
      (by simp) rfl,
   (click_ignores_detached_layers [layerOff, layerOn] pt0).2.1 layerOff [layerOn] rfl,
   (click_ignores_detached_layers [layerOff, layerOn] ptOut).2.2 (by decide)⟩

end InvaderMap
